import Mathlib

/-!
# Handshake controller of the websocket server (`socket.go`)

A shallow embedding of `SocketServer.ServeHTTP` and `getRemoteAddr`.

The handler is sequential code with effects on three kinds of objects: connection
endpoints, the broker's registry of clients, and the HTTP response writer.  The embedding
threads the mutable part (the heap of `Client` objects and the registry) explicitly as a
`World`, and records every effect the handler performs, in program order, as a list of
`Event`s.  Results of calls into code outside `socket.go` (the websocket library, the JSON
encoder, the authentication collaborator, the identity generator, `Client.send`) are
supplied by an `Env`, together with what is known of those calls: a successful upgrade
returns a newly allocated connection, a message writer can be obtained on such a
connection, and the JSON encoder does not fail on a control message.
-/

namespace Wave

/-! ## Go maps and the standard-library helpers the handler calls -/

/-- Handle of a connection endpoint (`*websocket.Conn`). -/
abbrev Conn := Nat

/-- Go `map[string]V`, as an association list; `mapGet` reads the first binding of a key. -/
abbrev GoMap (V : Type) := List (String × V)

/-- Map read `m[k]` with presence flag. -/
def mapGet {V : Type} (m : GoMap V) (k : String) : Option V :=
  match m with
  | [] => none
  | (k', v) :: rest => if k' = k then some v else mapGet rest k

/-- Map write `m[k] = v`: overwrite the binding of `k` when there is one, else add it. -/
def mapSet {V : Type} (m : GoMap V) (k : String) (v : V) : GoMap V :=
  match m with
  | [] => [(k, v)]
  | (k', v') :: rest => if k' = k then (k, v) :: rest else (k', v') :: mapSet rest k v

/-- Keys of a map. -/
def mapKeys {V : Type} (m : GoMap V) : List String := m.map Prod.fst

/-- Type `http.Header`, a `map[string][]string`. -/
abbrev Header := GoMap (List String)

/-- Lower-casing of one character, as `strings.ToLower` does on ASCII letters. -/
def lowerChar (c : Char) : Char :=
  if 65 ≤ c.toNat ∧ c.toNat ≤ 90 then Char.ofNat (c.toNat + 32) else c

/-- Upper-casing of one ASCII letter. -/
def upperChar (c : Char) : Char :=
  if 97 ≤ c.toNat ∧ c.toNat ≤ 122 then Char.ofNat (c.toNat - 32) else c

/-- Lower-casing of the ASCII letters of a string: the value of `strings.ToLower` on a
string of ASCII characters. -/
def asciiLower (s : String) : String := String.mk (s.data.map lowerChar)

/-- Token bytes of a header field name (`validHeaderFieldByte` of `net/textproto`). -/
def validHeaderFieldByte (c : Char) : Bool :=
  (48 ≤ c.toNat && c.toNat ≤ 57) || (65 ≤ c.toNat && c.toNat ≤ 90) ||
  (97 ≤ c.toNat && c.toNat ≤ 122) ||
  [33, 35, 36, 37, 38, 39, 42, 43, 45, 46, 94, 95, 96, 124, 126].contains c.toNat

/-- The canonicalising loop of `textproto.CanonicalMIMEHeaderKey`: a letter is upper-cased
at the start and after a dash, lower-cased elsewhere. -/
def canonLoop (upper : Bool) : List Char → List Char
  | [] => []
  | c :: cs =>
    let c' := if upper then upperChar c else lowerChar c
    c' :: canonLoop (c' = '-') cs

/-- Function `textproto.CanonicalMIMEHeaderKey`: a key with a byte that is not a token byte
is returned unchanged. -/
def CanonicalMIMEHeaderKey (s : String) : String :=
  if s.data.all validHeaderFieldByte then String.mk (canonLoop true s.data) else s

/-- Method `http.Header.Get`: the first value bound to the canonical form of the key, and
the empty string when there is none. -/
def Header.Get (h : Header) (key : String) : String :=
  match mapGet h (CanonicalMIMEHeaderKey key) with
  | some (v :: _) => v
  | _ => ""

/-- Method `url.Values.Get`: the first value bound to the key, the empty string when there
is none. -/
def Values.Get (q : GoMap (List String)) (key : String) : String :=
  match mapGet q key with
  | some (v :: _) => v
  | _ => ""

/-- The parts of `*http.Request` the handler reads: the header map, `RemoteAddr` and the
parsed query `r.URL.Query()`. -/
structure Request where
  Header : Header
  RemoteAddr : String
  Query : GoMap (List String)
  deriving DecidableEq, Repr

/-- Function `getRemoteAddr` (socket.go, lines 116-121). -/
def getRemoteAddr (r : Request) : String :=
  let addr := r.Header.Get "X-FORWARDED-FOR"
  if addr ≠ "" then addr else r.RemoteAddr

/-! ## Types declared outside `socket.go` -/

/-- Modelled from the spec: the `Session` type is declared outside socket.go; a resolved
Session Identity is an opaque principal, kept here as its subject. -/
structure Session where
  subject : String
  deriving DecidableEq, Repr

/-- Modelled from the spec: the package variable `anonymous`, the marker used when no
authentication is configured. -/
def anonymous : Session := ⟨"anonymous"⟩

/-- Modelled from the spec: the `Auth` collaborator is declared outside socket.go; the
handler only tests it against nil, calls `identify` on it and passes it on. -/
structure Auth where
  name : String
  deriving DecidableEq, Repr

/-- Lifecycle state of a Client. The handler refers to the constant `STATE_RECONNECT` only;
the other constants are declared outside socket.go and are kept by their code. -/
inductive ClientState where
  | STATE_RECONNECT
  | declaredElsewhere (code : Nat)
  deriving DecidableEq, Repr

/-- Modelled from the spec: the `Client` record is declared outside socket.go. Its fields
here are the ones `ServeHTTP` reads or assigns (`id`, `conn`, `state`, `addr`) and the
arguments `newClient` receives. -/
structure Client where
  id : String
  addr : String
  auth : Option Auth
  session : Session
  conn : Conn
  state : ClientState
  editable : Bool
  baseURL : String
  header : Header
  pingInterval : Nat
  reconnectTimeout : Nat
  deriving DecidableEq, Repr

/-- Modelled from the spec: the control message type `OpsD` is declared outside socket.go;
only the two fields the handler sets are kept, `U` (navigation URL) and `I` (client
identity). -/
structure OpsD where
  U : String
  I : String
  deriving DecidableEq, Repr

/-- The socket server's configuration (socket.go, lines 27-36); the broker is the `World`
and the upgrader is part of the `Env`. A nil map or collaborator is `none`. -/
structure SocketServer where
  auth : Option Auth
  editable : Bool
  baseURL : String
  forwardedHeaders : Option (GoMap Bool)
  pingInterval : Nat
  reconnectTimeout : Nat
  deriving DecidableEq, Repr

/-- The mutable state the handler works on: the heap of Client objects (a `*Client` is an
index into it) and the broker's registry from identity token to `*Client`. Identities are
generated tokens, never the empty string, so the registry holds no Client under the empty
token. -/
structure World where
  heap : List Client
  clientsByID : GoMap Nat
  noEmptyID : mapGet clientsByID "" = none

/-- Results of the calls that leave socket.go, and what is known of them. -/
structure Env where
  /-- The call `s.upgrader.Upgrade(w, r, nil)` in a world: the new connection, or the error
  text. -/
  Upgrade : World → Request → Except String Conn
  /-- The call `s.auth.identify(r)`; `none` is the nil session. -/
  identify : Auth → Request → Option Session
  /-- The call `json.Marshal`; `none` is a non-nil error. -/
  Marshal : OpsD → Option String
  /-- Whether `conn.NextWriter(websocket.TextMessage)` returns a writer. -/
  NextWriter : Conn → Bool
  /-- The call `strings.ToLower`. -/
  ToLower : String → String
  /-- The identity the generator hands to `newClient` in a world. -/
  newID : World → String
  /-- The result of `client.send(msg)`. -/
  send : Nat → String → Bool
  /-- A successful upgrade returns a newly allocated connection object: none of the
  connections the Clients of the world hold. -/
  upgrade_fresh : ∀ w r conn, Upgrade w r = Except.ok conn → ∀ c ∈ w.heap, c.conn ≠ conn
  /-- On a connection the upgrade has just returned no write error is recorded, and a text
  message is a data message: a message writer is obtained. -/
  nextWriter_fresh : ∀ w r conn, Upgrade w r = Except.ok conn → NextWriter conn = true
  /-- A control message is a record of strings: the JSON encoder does not fail on it. -/
  marshal_ok : ∀ m, Marshal m ≠ none
  /-- On a string of ASCII characters `strings.ToLower` lower-cases the letters A to Z. -/
  toLower_ascii : ∀ s : String, (∀ c ∈ s.data, c.toNat < 128) → ToLower s = asciiLower s
  /-- Modelled from the spec: a generated identity is new, unique among the live sessions
  and never reused: the registry holds no Client under it. -/
  newID_fresh : ∀ w, mapGet w.clientsByID (newID w) = none

/-- Constant `websocket.TextMessage`. -/
def TextMessage : Nat := 1

/-- Constant `websocket.CloseMessage`. -/
def CloseMessage : Nat := 8

/-- Constant `http.StatusUnauthorized`. -/
def StatusUnauthorized : Nat := 401

/-- Constant `http.StatusInternalServerError`. -/
def StatusInternalServerError : Nat := 500

/-- Effects of the handler, in the order the statements run. -/
inductive Event where
  /-- A call `echo(Log ...)` with its fields. -/
  | echo (fields : List (String × String))
  /-- The call `conn.NextWriter(websocket.TextMessage)`. -/
  | nextWriter (conn : Conn)
  /-- The call `sw.Write(msg)` on the writer of `conn`. -/
  | swWrite (conn : Conn) (msg : String)
  /-- The call `sw.Close()` on the writer of `conn`: it flushes the message, the connection
  stays open. -/
  | swClose (conn : Conn)
  /-- The call `http.Error(w, http.StatusText(code), code)`. -/
  | httpError (code : Nat)
  /-- The call `s.broker.getClient(id)`. -/
  | getClient (id : String)
  /-- The call `client.lock.Lock()`. -/
  | lock (client : Nat)
  /-- The call `conn.WriteMessage(messageType, data)`. -/
  | writeMessage (conn : Conn) (messageType : Nat) (data : List Nat)
  /-- The call `conn.Close()`. -/
  | connClose (conn : Conn)
  /-- The assignment `client.conn = conn`. -/
  | setConn (client : Nat) (conn : Conn)
  /-- The assignment `client.state = state`. -/
  | setState (client : Nat) (state : ClientState)
  /-- The assignment `client.addr = addr`. -/
  | setAddr (client : Nat) (addr : String)
  /-- The call `client.lock.Unlock()`. -/
  | unlock (client : Nat)
  /-- The call `newClient(...)`, with the pointer it returned. -/
  | newClient (client : Nat)
  /-- The call `client.send(msg)` and its result. -/
  | send (client : Nat) (msg : String) (ok : Bool)
  /-- The statement `go client.flush()`. -/
  | goFlush (client : Nat)
  /-- The statement `go client.listen()`. -/
  | goListen (client : Nat)
  deriving DecidableEq, Repr

/-! ## Code outside `socket.go` that the handler calls on the broker -/

/-- Modelled from the spec: `Broker.getClient` is outside socket.go; it is the Registry's
`lookup(id) -> Client or absent`. The result is the pointer together with the object it
points to. -/
def getClient (w : World) (id : String) : Option (Nat × Client) :=
  match mapGet w.clientsByID id with
  | none => none
  | some p =>
    match w.heap[p]? with
    | none => none
    | some c => some (p, c)

/-- Modelled from the spec: `newClient` is outside socket.go; it creates a fresh Client from
its arguments and assigns it the new identity. It does not write the registry: per the
handshake's step 4 a Client is registered only after its announcement is confirmed sent.
The new object is allocated at the end of the heap; its initial state constant is declared
outside socket.go. -/
def newClient (w : World) (id : String) (addr : String) (auth : Option Auth)
    (session : Session) (conn : Conn) (editable : Bool) (baseURL : String)
    (header : Header) (pingInterval reconnectTimeout : Nat) : World × Nat × Client :=
  let client : Client :=
    { id := id, addr := addr, auth := auth, session := session, conn := conn,
      state := ClientState.declaredElsewhere 0, editable := editable, baseURL := baseURL,
      header := header, pingInterval := pingInterval, reconnectTimeout := reconnectTimeout }
  ({ w with heap := w.heap ++ [client] }, w.heap.length, client)

/-! ## The handler -/

/-- Map read `m[k]` on a `map[string]bool`: a missing key reads as `false`. -/
def mapGetBool (m : GoMap Bool) (k : String) : Bool :=
  match mapGet m k with
  | some b => b
  | none => false

/-- The body of the loop at socket.go lines 80-84, for one entry of `r.Header`. -/
def forwardStep (env : Env) (fh : GoMap Bool) (header : Header)
    (kv : String × List String) : Header :=
  if mapGetBool fh "*" || mapGetBool fh (env.ToLower kv.1) then
    mapSet header kv.1 kv.2
  else header

/-- The forwarded-header snapshot (socket.go, lines 78-85): an empty header map, filled by
ranging over `r.Header` when a forwarding policy is configured. -/
def forwardedSnapshot (s : SocketServer) (env : Env) (r : Request) : Header :=
  match s.forwardedHeaders with
  | none => []
  | some fh => r.Header.foldl (forwardStep env fh) []

/-- The reattach branch (socket.go, lines 89-97 and 112-113) for the Client `client` found
at pointer `p`. -/
def reattach (w : World) (r : Request) (conn : Conn) (p : Nat) (client : Client) :
    World × List Event :=
  let c1 := { client with conn := conn }
  let c2 := { c1 with state := ClientState.STATE_RECONNECT }
  let c3 := { c2 with addr := getRemoteAddr r }
  ({ w with heap := w.heap.set p c3 },
    [Event.lock p,
     Event.writeMessage client.conn CloseMessage [],
     Event.connClose client.conn,
     Event.setConn p conn,
     Event.setState p ClientState.STATE_RECONNECT,
     Event.setAddr p (getRemoteAddr r),
     Event.unlock p,
     Event.echo [("t", "client_reconnect"), ("client_id", c3.id), ("addr", getRemoteAddr r)],
     Event.goFlush p,
     Event.goListen p])

/-- The fresh branch (socket.go, lines 99-109 and 112-113). -/
def fresh (s : SocketServer) (env : Env) (w : World) (r : Request) (conn : Conn)
    (session : Session) (header : Header) : World × List Event :=
  let (w1, p, client) := newClient w (env.newID w) (getRemoteAddr r) s.auth session conn
    s.editable s.baseURL header s.pingInterval s.reconnectTimeout
  match env.Marshal { U := "", I := client.id } with
  | none => (w1, [Event.newClient p, Event.httpError StatusInternalServerError])
  | some helloMsg =>
    if env.send p helloMsg then
      (w1, [Event.newClient p, Event.send p helloMsg true, Event.goFlush p,
            Event.goListen p])
    else
      (w1, [Event.newClient p, Event.send p helloMsg false,
            Event.httpError StatusInternalServerError])

/-- The handler from line 78 on, once the connection is upgraded and the session is
resolved. -/
def attach (s : SocketServer) (env : Env) (w : World) (r : Request) (conn : Conn)
    (session : Session) : World × List Event :=
  let header := forwardedSnapshot s env r
  let clientID := Values.Get r.Query "client-id"
  match getClient w clientID with
  | some (p, client) =>
    let (w1, evs) := reattach w r conn p client
    (w1, Event.getClient clientID :: evs)
  | none =>
    let (w1, evs) := fresh s env w r conn session header
    (w1, Event.getClient clientID :: evs)

/-- The authentication-failure branch (socket.go, lines 64-74). -/
def rejectUnauthenticated (s : SocketServer) (env : Env) (conn : Conn) : List Event :=
  match env.Marshal { U := s.baseURL ++ "_auth/logout", I := "" } with
  | some msg =>
    if env.NextWriter conn then
      [Event.nextWriter conn, Event.swWrite conn msg, Event.swClose conn]
    else
      [Event.nextWriter conn, Event.httpError StatusUnauthorized]
  | none => []

/-- Method `SocketServer.ServeHTTP` (socket.go, lines 53-114): the world it leaves and the
effects it performed, in order. -/
def ServeHTTP (s : SocketServer) (env : Env) (w : World) (r : Request) :
    World × List Event :=
  match env.Upgrade w r with
  | Except.error err => (w, [Event.echo [("t", "socket_upgrade"), ("err", err)]])
  | Except.ok conn =>
    match s.auth with
    | none => attach s env w r conn anonymous
    | some a =>
      match env.identify a r with
      | none => (w, rejectUnauthenticated s env conn)
      | some session => attach s env w r conn session

/-! ## Vocabulary of the properties -/

/-- The handler proceeds past authentication with `session`: either no authentication is
configured and the session is the anonymous marker, or the collaborator resolved it. -/
def Authenticated (s : SocketServer) (env : Env) (r : Request) (session : Session) : Prop :=
  (s.auth = none ∧ session = anonymous) ∨
    ∃ a, s.auth = some a ∧ env.identify a r = some session

/-- Authentication is configured and no session can be resolved from the request. -/
def AuthFails (s : SocketServer) (env : Env) (r : Request) : Prop :=
  ∃ a, s.auth = some a ∧ env.identify a r = none

/-- The caller-supplied identity token, `r.URL.Query().Get("client-id")`. -/
def clientIdOf (r : Request) : String := Values.Get r.Query "client-id"

/-- The statuses passed to `http.Error`, in order. -/
def statuses : List Event → List Nat
  | [] => []
  | Event.httpError code :: rest => code :: statuses rest
  | _ :: rest => statuses rest

/-- The messages handed to `client.send`, with the Client, whatever the result. -/
def handed : List Event → List (Nat × String)
  | [] => []
  | Event.send p msg _ :: rest => (p, msg) :: handed rest
  | _ :: rest => handed rest

/-- The messages sent through a Client: those `client.send` accepted. -/
def sent : List Event → List (Nat × String)
  | [] => []
  | Event.send p msg true :: rest => (p, msg) :: sent rest
  | _ :: rest => sent rest

/-- The frames the handler writes on connections itself: text messages through a message
writer, and frames through `WriteMessage`. -/
def written : List Event → List (Conn × Nat × String)
  | [] => []
  | Event.swWrite conn msg :: rest => (conn, TextMessage, msg) :: written rest
  | Event.writeMessage conn ty _ :: rest => (conn, ty, "") :: written rest
  | _ :: rest => written rest

/-- The pumps started, in order: `(client, true)` for flush, `(client, false)` for
listen. -/
def pumps : List Event → List (Nat × Bool)
  | [] => []
  | Event.goFlush p :: rest => (p, true) :: pumps rest
  | Event.goListen p :: rest => (p, false) :: pumps rest
  | _ :: rest => pumps rest

/-- The connections closed with `conn.Close()`, in order. -/
def closed : List Event → List Conn
  | [] => []
  | Event.connClose conn :: rest => conn :: closed rest
  | _ :: rest => closed rest

/-- The Clients created with `newClient`, in order. -/
def created : List Event → List Nat
  | [] => []
  | Event.newClient p :: rest => p :: created rest
  | _ :: rest => created rest

/-- The tokens looked up in the registry, in order. -/
def lookups : List Event → List String
  | [] => []
  | Event.getClient id :: rest => id :: lookups rest
  | _ :: rest => lookups rest

/-- Runs through a trace with the set of Client locks currently held; the result is `none`
when a Client's connection is assigned while its lock is not held, when a held lock is
acquired again or when a lock that is not held is released; otherwise the locks held at
the end. -/
def lockDiscipline (held : List Nat) : List Event → Option (List Nat)
  | [] => some held
  | Event.lock p :: rest =>
    if p ∈ held then none else lockDiscipline (p :: held) rest
  | Event.unlock p :: rest =>
    if p ∈ held then lockDiscipline (held.erase p) rest else none
  | Event.setConn p _ :: rest =>
    if p ∈ held then lockDiscipline held rest else none
  | _ :: rest => lockDiscipline held rest

/-- Number of acquisitions of the lock of Client `p` in a trace. -/
def lockCount (p : Nat) : List Event → Nat
  | [] => 0
  | Event.lock q :: rest => (if q = p then 1 else 0) + lockCount p rest
  | _ :: rest => lockCount p rest

/-- Number of releases of the lock of Client `p` in a trace. -/
def unlockCount (p : Nat) : List Event → Nat
  | [] => 0
  | Event.unlock q :: rest => (if q = p then 1 else 0) + unlockCount p rest
  | _ :: rest => unlockCount p rest

/-! ## Sample inputs -/

/-- A name longer than all keys of a registry together, hence none of its keys. -/
def unusedName (m : GoMap Nat) : String :=
  String.mk (List.replicate (m.foldr (fun kv n => kv.1.length + n) 0 + 1) 'u')

/-- An environment in which every external call succeeds: the upgrade yields connection 7
when no Client holds it, the generator yields `u1` when it is not registered. -/
def sampleEnv : Env :=
  { Upgrade := fun w _ =>
      if ∀ c ∈ w.heap, c.conn ≠ 7 then Except.ok 7 else Except.error "no connection"
    identify := fun _ _ => none
    Marshal := fun m => some ("u=" ++ m.U ++ ";i=" ++ m.I)
    NextWriter := fun _ => true
    ToLower := asciiLower
    newID := fun w =>
      if mapGet w.clientsByID "u1" = none then "u1" else unusedName w.clientsByID
    send := fun _ _ => true
    upgrade_fresh := by
      intro w r conn h c hc
      dsimp only at h
      by_cases hall : ∀ c ∈ w.heap, c.conn ≠ 7
      · rw [if_pos hall] at h
        injection h with h
        subst h
        exact hall c hc
      · rw [if_neg hall] at h
        injection h
    nextWriter_fresh := fun _ _ _ _ => rfl
    marshal_ok := fun _ h => Option.noConfusion h
    toLower_ascii := fun _ _ => rfl
    newID_fresh := by
      intro w
      have key : ∀ (m : GoMap Nat) (k : String),
          m.foldr (fun kv n => kv.1.length + n) 0 < k.length → mapGet m k = none := by
        intro m
        induction m with
        | nil => intro k _; rfl
        | cons kv rest ih =>
          intro k hk
          obtain ⟨k0, v0⟩ := kv
          simp only [List.foldr_cons] at hk
          have hne : ¬ k0 = k := by
            intro e
            subst e
            omega
          simp only [mapGet, hne, if_false]
          exact ih k (by omega)
      by_cases h1 : mapGet w.clientsByID "u1" = none
      · simp only [h1, if_true]
      · simp only [h1, if_false]
        apply key
        show _ < (List.replicate _ 'u').length
        rw [List.length_replicate]
        omega }

/-- A server without authentication that forwards the `cookie` header. -/
def sampleServer : SocketServer :=
  { auth := none, editable := false, baseURL := "/", forwardedHeaders := some [("cookie", true)],
    pingInterval := 50, reconnectTimeout := 2 }

/-- A registered Client, identity `c1`, on connection 3. -/
def sampleClient : Client :=
  { id := "c1", addr := "10.0.0.1:5000", auth := none, session := anonymous, conn := 3,
    state := ClientState.declaredElsewhere 1, editable := false, baseURL := "/",
    header := [("Accept", ["*/*"])], pingInterval := 50, reconnectTimeout := 2 }

/-- A world whose registry maps `c1` to `sampleClient`. -/
def sampleWorld : World :=
  { heap := [sampleClient], clientsByID := [("c1", 0)], noEmptyID := by decide }

/-- A request through a proxy that supplies the token `c1`. -/
def sampleRequest : Request :=
  { Header := [("X-Forwarded-For", ["1.2.3.4"]), ("Cookie", ["k=v"])],
    RemoteAddr := "9.9.9.9:1", Query := [("client-id", ["c1"])] }

/-- A request that supplies a token the registry does not know. -/
def unknownTokenRequest : Request :=
  { Header := [("Cookie", ["k=v"])], RemoteAddr := "9.9.9.9:1",
    Query := [("client-id", ["gone"])] }

/-- A request that supplies no token. -/
def noTokenRequest : Request :=
  { Header := [("Cookie", ["k=v"])], RemoteAddr := "9.9.9.9:1", Query := [] }

/-- The sample environment, except that `client.send` reports failure. -/
def sendFailsEnv : Env := { sampleEnv with send := fun _ _ => false }

/-- The sample server with authentication configured. -/
def authServer : SocketServer := { sampleServer with auth := some ⟨"oidc"⟩ }

/-- The forwarding rule in the words of the spec: the policy is the wildcard, or it
contains the header's name compared case-insensitively. -/
def specForwards (env : Env) (fh : GoMap Bool) (name : String) : Prop :=
  mapGetBool fh "*" = true ∨
    ∃ n, mapGetBool fh n = true ∧ env.ToLower n = env.ToLower name

/-- A server whose forwarding policy names the header `X-Custom` as it is written on the
wire. -/
def mixedCaseServer : SocketServer :=
  { sampleServer with forwardedHeaders := some [("X-Custom", true)] }

/-- A request that carries the header `X-Custom`. -/
def customHeaderRequest : Request :=
  { Header := [("X-Custom", ["v"]), ("Cookie", ["k=v"])], RemoteAddr := "9.9.9.9:1",
    Query := [] }

/-! ## The paths of the handler -/

theorem ServeHTTP_upgrade_failed (s : SocketServer) (env : Env) (w : World) (r : Request)
    (err : String) (hup : env.Upgrade w r = Except.error err) :
    ServeHTTP s env w r = (w, [Event.echo [("t", "socket_upgrade"), ("err", err)]]) := by
  unfold ServeHTTP
  rw [hup]

theorem ServeHTTP_auth_failed (s : SocketServer) (env : Env) (w : World) (r : Request)
    (conn : Conn) (hup : env.Upgrade w r = Except.ok conn) (hau : AuthFails s env r) :
    ServeHTTP s env w r = (w, rejectUnauthenticated s env conn) := by
  obtain ⟨a, ha, hid⟩ := hau
  unfold ServeHTTP
  rw [hup]
  simp only [ha, hid]

theorem ServeHTTP_authenticated (s : SocketServer) (env : Env) (w : World) (r : Request)
    (conn : Conn) (session : Session) (hup : env.Upgrade w r = Except.ok conn)
    (hau : Authenticated s env r session) :
    ServeHTTP s env w r = attach s env w r conn session := by
  unfold ServeHTTP
  rw [hup]
  rcases hau with ⟨ha, hs⟩ | ⟨a, ha, hid⟩
  · simp only [ha, hs]
  · simp only [ha, hid]

theorem attach_found (s : SocketServer) (env : Env) (w : World) (r : Request)
    (conn : Conn) (session : Session) (p : Nat) (c : Client)
    (hreg : getClient w (clientIdOf r) = some (p, c)) :
    attach s env w r conn session =
      ((reattach w r conn p c).1, Event.getClient (clientIdOf r) :: (reattach w r conn p c).2) := by
  unfold clientIdOf at hreg
  unfold attach
  simp only [hreg, clientIdOf]

theorem attach_not_found (s : SocketServer) (env : Env) (w : World) (r : Request)
    (conn : Conn) (session : Session) (hreg : getClient w (clientIdOf r) = none) :
    attach s env w r conn session =
      ((fresh s env w r conn session (forwardedSnapshot s env r)).1,
        Event.getClient (clientIdOf r) ::
          (fresh s env w r conn session (forwardedSnapshot s env r)).2) := by
  unfold clientIdOf at hreg
  unfold attach
  simp only [hreg, clientIdOf]

theorem getClient_some (w : World) (id : String) (p : Nat) (c : Client)
    (h : getClient w id = some (p, c)) :
    mapGet w.clientsByID id = some p ∧ w.heap[p]? = some c := by
  unfold getClient at h
  cases hm : mapGet w.clientsByID id with
  | none => simp only [hm] at h; exact absurd h (by simp)
  | some q =>
    cases hq : w.heap[q]? with
    | none => simp only [hm, hq] at h; exact absurd h (by simp)
    | some c' =>
      simp only [hm, hq, Option.some.injEq, Prod.mk.injEq] at h
      obtain ⟨h1, h2⟩ := h
      subst h1
      subst h2
      exact ⟨rfl, hq⟩

theorem ServeHTTP_paths (s : SocketServer) (env : Env) (w : World) (r : Request) :
    (∃ err, env.Upgrade w r = Except.error err) ∨
    (∃ conn, env.Upgrade w r = Except.ok conn ∧ AuthFails s env r) ∨
    (∃ conn session, env.Upgrade w r = Except.ok conn ∧ Authenticated s env r session) := by
  cases hup : env.Upgrade w r with
  | error err => exact Or.inl ⟨err, rfl⟩
  | ok conn =>
    right
    cases ha : s.auth with
    | none => exact Or.inr ⟨conn, anonymous, rfl, Or.inl ⟨ha, rfl⟩⟩
    | some a =>
      cases hid : env.identify a r with
      | none => exact Or.inl ⟨conn, rfl, a, ha, hid⟩
      | some session => exact Or.inr ⟨conn, session, rfl, Or.inr ⟨a, ha, hid⟩⟩

theorem rejectUnauthenticated_cases (s : SocketServer) (env : Env) (conn : Conn) :
    (env.Marshal { U := s.baseURL ++ "_auth/logout", I := "" } = none ∧
      rejectUnauthenticated s env conn = []) ∨
    (∃ msg, env.Marshal { U := s.baseURL ++ "_auth/logout", I := "" } = some msg ∧
      env.NextWriter conn = true ∧
      rejectUnauthenticated s env conn =
        [Event.nextWriter conn, Event.swWrite conn msg, Event.swClose conn]) ∨
    (∃ msg, env.Marshal { U := s.baseURL ++ "_auth/logout", I := "" } = some msg ∧
      env.NextWriter conn = false ∧
      rejectUnauthenticated s env conn =
        [Event.nextWriter conn, Event.httpError StatusUnauthorized]) := by
  unfold rejectUnauthenticated
  cases hm : env.Marshal { U := s.baseURL ++ "_auth/logout", I := "" } with
  | none => exact Or.inl ⟨rfl, rfl⟩
  | some msg =>
    right
    cases hn : env.NextWriter conn with
    | true => exact Or.inl ⟨msg, rfl, rfl, by simp⟩
    | false => exact Or.inr ⟨msg, rfl, rfl, by simp⟩

/-- The Client `newClient` builds for this request. -/
theorem fresh_cases (s : SocketServer) (env : Env) (w : World) (r : Request) (conn : Conn)
    (session : Session) (header : Header) :
    (fresh s env w r conn session header).1 =
        (newClient w (env.newID w) (getRemoteAddr r) s.auth session conn s.editable s.baseURL
          header s.pingInterval s.reconnectTimeout).1 ∧
    ((env.Marshal { U := "", I := env.newID w } = none ∧
        (fresh s env w r conn session header).2 =
          [Event.newClient w.heap.length, Event.httpError StatusInternalServerError]) ∨
     (∃ msg, env.Marshal { U := "", I := env.newID w } = some msg ∧
        env.send w.heap.length msg = false ∧
        (fresh s env w r conn session header).2 =
          [Event.newClient w.heap.length, Event.send w.heap.length msg false,
           Event.httpError StatusInternalServerError]) ∨
     (∃ msg, env.Marshal { U := "", I := env.newID w } = some msg ∧
        env.send w.heap.length msg = true ∧
        (fresh s env w r conn session header).2 =
          [Event.newClient w.heap.length, Event.send w.heap.length msg true,
           Event.goFlush w.heap.length, Event.goListen w.heap.length])) := by
  unfold fresh newClient
  simp only []
  cases hm : env.Marshal { U := "", I := env.newID w } with
  | none => exact ⟨rfl, Or.inl ⟨rfl, rfl⟩⟩
  | some msg =>
    cases hs : env.send w.heap.length msg with
    | false => exact ⟨by simp [hs], Or.inr (Or.inl ⟨msg, rfl, hs, by simp [hs]⟩)⟩
    | true => exact ⟨by simp [hs], Or.inr (Or.inr ⟨msg, rfl, hs, by simp [hs]⟩)⟩

theorem reattach_trace (w : World) (r : Request) (conn : Conn) (p : Nat) (c : Client) :
    (reattach w r conn p c).2 =
      [Event.lock p,
       Event.writeMessage c.conn CloseMessage [],
       Event.connClose c.conn,
       Event.setConn p conn,
       Event.setState p ClientState.STATE_RECONNECT,
       Event.setAddr p (getRemoteAddr r),
       Event.unlock p,
       Event.echo [("t", "client_reconnect"), ("client_id", c.id), ("addr", getRemoteAddr r)],
       Event.goFlush p,
       Event.goListen p] := rfl

/-- Every trace of the handler is of one of seven shapes. -/
theorem ServeHTTP_trace_shapes (s : SocketServer) (env : Env) (w : World) (r : Request) :
    (∃ err, (ServeHTTP s env w r).2 = [Event.echo [("t", "socket_upgrade"), ("err", err)]]) ∨
    (ServeHTTP s env w r).2 = [] ∨
    (∃ conn msg, (ServeHTTP s env w r).2 =
        [Event.nextWriter conn, Event.swWrite conn msg, Event.swClose conn]) ∨
    (∃ conn, (ServeHTTP s env w r).2 =
        [Event.nextWriter conn, Event.httpError StatusUnauthorized]) ∨
    (∃ id p conn conn' addr fields, (ServeHTTP s env w r).2 =
        [Event.getClient id, Event.lock p, Event.writeMessage conn' CloseMessage [],
         Event.connClose conn', Event.setConn p conn,
         Event.setState p ClientState.STATE_RECONNECT, Event.setAddr p addr, Event.unlock p,
         Event.echo fields, Event.goFlush p, Event.goListen p]) ∨
    (∃ id p, (ServeHTTP s env w r).2 =
        [Event.getClient id, Event.newClient p, Event.httpError StatusInternalServerError]) ∨
    (∃ id p msg, (ServeHTTP s env w r).2 =
        [Event.getClient id, Event.newClient p, Event.send p msg false,
         Event.httpError StatusInternalServerError]) ∨
    (∃ id p msg, (ServeHTTP s env w r).2 =
        [Event.getClient id, Event.newClient p, Event.send p msg true, Event.goFlush p,
         Event.goListen p]) := by
  rcases ServeHTTP_paths s env w r with ⟨err, hup⟩ | ⟨conn, hup, hau⟩ | ⟨conn, session, hup, hau⟩
  · exact Or.inl ⟨err, by rw [ServeHTTP_upgrade_failed s env w r err hup]⟩
  · rw [ServeHTTP_auth_failed s env w r conn hup hau]
    rcases rejectUnauthenticated_cases s env conn with ⟨_, h⟩ | ⟨msg, _, _, h⟩ | ⟨msg, _, _, h⟩
    · exact Or.inr (Or.inl h)
    · exact Or.inr (Or.inr (Or.inl ⟨conn, msg, h⟩))
    · exact Or.inr (Or.inr (Or.inr (Or.inl ⟨conn, h⟩)))
  · rw [ServeHTTP_authenticated s env w r conn session hup hau]
    cases hreg : getClient w (clientIdOf r) with
    | some pc =>
      obtain ⟨p, c⟩ := pc
      rw [attach_found s env w r conn session p c hreg]
      exact Or.inr (Or.inr (Or.inr (Or.inr (Or.inl ⟨_, p, conn, c.conn, _, _, by
        rw [reattach_trace]⟩))))
    | none =>
      rw [attach_not_found s env w r conn session hreg]
      rcases (fresh_cases s env w r conn session (forwardedSnapshot s env r)).2 with
        ⟨_, h⟩ | ⟨msg, _, _, h⟩ | ⟨msg, _, _, h⟩
      · exact Or.inr (Or.inr (Or.inr (Or.inr (Or.inr (Or.inl ⟨_, _, by rw [h]⟩)))))
      · exact Or.inr (Or.inr (Or.inr (Or.inr (Or.inr (Or.inr (Or.inl ⟨_, _, msg, by rw [h]⟩))))))
      · exact Or.inr (Or.inr (Or.inr (Or.inr (Or.inr (Or.inr (Or.inr ⟨_, _, msg, by rw [h]⟩))))))

/-- The key `getRemoteAddr` reads, in canonical form. -/
theorem getRemoteAddr_forwarded_key : CanonicalMIMEHeaderKey "X-FORWARDED-FOR" = "X-Forwarded-For" := by decide

/-! ## Reattachment -/

/-- Claim C1. When the upgrade succeeds, authentication passes and the `client-id` token
maps to a Client in the registry, the Client after `ServeHTTP` is the Client before it with
exactly three fields replaced: `conn` is the upgraded connection, `state` is
`STATE_RECONNECT` whatever it was, and `addr` is `getRemoteAddr r`, that is the first
`X-Forwarded-For` value when it is non-empty and `r.RemoteAddr` otherwise. Its `id`,
`session` and `header` snapshot are unchanged whatever headers the request carries; no
other Client and no registry entry changes. -/
theorem ServeHTTP_reattach_replaces_three_fields (s : SocketServer) (env : Env) (w : World)
    (r : Request) (conn : Conn) (session : Session) (p : Nat) (c : Client)
    (hup : env.Upgrade w r = Except.ok conn) (hau : Authenticated s env r session)
    (hreg : getClient w (clientIdOf r) = some (p, c)) :
    (ServeHTTP s env w r).1.heap[p]? =
        some { c with conn := conn, state := ClientState.STATE_RECONNECT,
                      addr := getRemoteAddr r } ∧
      (∀ c', (ServeHTTP s env w r).1.heap[p]? = some c' →
        c'.id = c.id ∧ c'.session = c.session ∧ c'.header = c.header) ∧
      getRemoteAddr r =
        (match mapGet r.Header "X-Forwarded-For" with
         | some (v :: _) => if v = "" then r.RemoteAddr else v
         | _ => r.RemoteAddr) ∧
      (∀ q, q ≠ p → (ServeHTTP s env w r).1.heap[q]? = w.heap[q]?) ∧
      (ServeHTTP s env w r).1.heap.length = w.heap.length ∧
      (ServeHTTP s env w r).1.clientsByID = w.clientsByID := by
  have hp := (getClient_some w _ p c hreg).2
  have hlt : p < w.heap.length := by
    rcases Nat.lt_or_ge p w.heap.length with h | h
    · exact h
    · rw [List.getElem?_eq_none h] at hp
      exact absurd hp (by simp)
  rw [ServeHTTP_authenticated s env w r conn session hup hau,
    attach_found s env w r conn session p c hreg]
  have hnew : (reattach w r conn p c).1.heap[p]? =
      some { c with conn := conn, state := ClientState.STATE_RECONNECT,
                    addr := getRemoteAddr r } := by
    simp [reattach, hlt]
  refine ⟨hnew, ?_, ?_, ?_, ?_, ?_⟩
  · intro c' hc'
    simp only [] at hc'
    rw [hnew] at hc'
    cases hc'
    exact ⟨rfl, rfl, rfl⟩
  · unfold getRemoteAddr Header.Get
    rw [getRemoteAddr_forwarded_key]
    cases mapGet r.Header "X-Forwarded-For" with
    | none => simp
    | some vs =>
      cases vs with
      | nil => simp
      | cons v _ => by_cases hv : v = "" <;> simp [hv]
  · intro q hq
    simp [reattach, List.getElem?_set_ne (Ne.symm hq)]
  · simp [reattach]
  · simp [reattach]

/-- Claim C1 at the sample request: the registered Client `c1` gets connection 7. -/
theorem ServeHTTP_reattach_replaces_three_fields_witness :
    getClient sampleWorld (clientIdOf sampleRequest) = some (0, sampleClient) ∧
    (ServeHTTP sampleServer sampleEnv sampleWorld sampleRequest).1.heap[0]? =
      some { sampleClient with conn := 7, state := ClientState.STATE_RECONNECT,
                               addr := getRemoteAddr sampleRequest } :=
  ⟨by decide,
   (ServeHTTP_reattach_replaces_three_fields sampleServer sampleEnv sampleWorld sampleRequest
      7 anonymous 0 sampleClient rfl (Or.inl ⟨rfl, rfl⟩) (by decide)).1⟩

/-- The Client a registry lookup finds is an object of the heap. -/
theorem getClient_mem (w : World) (id : String) (p : Nat) (c : Client)
    (h : getClient w id = some (p, c)) : c ∈ w.heap :=
  List.getElem?_mem (getClient_some w id p c h).2

/-- Claim C2. On the reattach path the handler's effects are, in this order: registry
lookup, `Lock` on the Client, a close frame written to the previous connection, `Close` of
the previous connection, assignment of the new connection, of the state and of the
address, `Unlock`, the log line, and the two pumps; after them the Client holds the
upgraded connection, the state `STATE_RECONNECT` and the request's origin. The lock is
taken once and released once. The one frame the handler writes and the one `Close` it
calls go to the connection the Client held before, which is not the upgraded connection:
the handler neither writes to nor closes the upgraded connection, and hands no message to
the Client. On every path of the handler the connection of a Client is assigned only while
its lock is held, and each lock is released as often as it was acquired, at most once. -/
theorem ServeHTTP_reattach_critical_section (s : SocketServer) (env : Env) (w : World)
    (r : Request) :
    (∀ conn session p c, env.Upgrade w r = Except.ok conn → Authenticated s env r session →
        getClient w (clientIdOf r) = some (p, c) →
        (ServeHTTP s env w r).2 =
          [Event.getClient (clientIdOf r),
           Event.lock p,
           Event.writeMessage c.conn CloseMessage [],
           Event.connClose c.conn,
           Event.setConn p conn,
           Event.setState p ClientState.STATE_RECONNECT,
           Event.setAddr p (getRemoteAddr r),
           Event.unlock p,
           Event.echo [("t", "client_reconnect"), ("client_id", c.id),
                       ("addr", getRemoteAddr r)],
           Event.goFlush p,
           Event.goListen p] ∧
        w.heap[p]? = some c ∧
        (ServeHTTP s env w r).1.heap[p]? =
          some { c with conn := conn, state := ClientState.STATE_RECONNECT,
                        addr := getRemoteAddr r } ∧
        lockCount p (ServeHTTP s env w r).2 = 1 ∧
        unlockCount p (ServeHTTP s env w r).2 = 1 ∧
        written (ServeHTTP s env w r).2 = [(c.conn, CloseMessage, "")] ∧
        closed (ServeHTTP s env w r).2 = [c.conn] ∧
        c.conn ≠ conn ∧
        (∀ f ∈ written (ServeHTTP s env w r).2, f.1 ≠ conn) ∧
        conn ∉ closed (ServeHTTP s env w r).2 ∧
        handed (ServeHTTP s env w r).2 = []) ∧
    lockDiscipline [] (ServeHTTP s env w r).2 = some [] ∧
    (∀ q, lockCount q (ServeHTTP s env w r).2 = unlockCount q (ServeHTTP s env w r).2 ∧
          unlockCount q (ServeHTTP s env w r).2 ≤ 1) := by
  refine ⟨?_, ?_, ?_⟩
  · intro conn session p c hup hau hreg
    have hp := (getClient_some w _ p c hreg).2
    have hlt : p < w.heap.length := by
      rcases Nat.lt_or_ge p w.heap.length with h | h
      · exact h
      · rw [List.getElem?_eq_none h] at hp
        exact absurd hp (by simp)
    have hne : c.conn ≠ conn := env.upgrade_fresh w r conn hup c (getClient_mem w _ p c hreg)
    have hne' : ¬ conn = c.conn := fun h => hne h.symm
    rw [ServeHTTP_authenticated s env w r conn session hup hau,
      attach_found s env w r conn session p c hreg, reattach_trace]
    refine ⟨rfl, hp, by simp [reattach, hlt], by simp [lockCount], by simp [unlockCount],
      by simp [written], by simp [closed], hne, ?_, ?_, ?_⟩
    · simp [written, hne]
    · simp [closed, hne']
    · simp [handed]
  · rcases ServeHTTP_trace_shapes s env w r with ⟨_, h⟩ | h | ⟨_, _, h⟩ | ⟨_, h⟩ |
      ⟨_, _, _, _, _, _, h⟩ | ⟨_, _, h⟩ | ⟨_, _, _, h⟩ | ⟨_, _, _, h⟩ <;>
      (rw [h]; simp [lockDiscipline])
  · intro q
    rcases ServeHTTP_trace_shapes s env w r with ⟨_, h⟩ | h | ⟨_, _, h⟩ | ⟨_, h⟩ |
      ⟨_, _, _, _, _, _, h⟩ | ⟨_, _, h⟩ | ⟨_, _, _, h⟩ | ⟨_, _, _, h⟩ <;>
      (rw [h]; simp [lockCount, unlockCount]; try (split <;> simp))

/-- Claim C2 at the sample request: the Client held connection 3 and holds the upgraded
connection 7 afterwards; the close frame and the `Close` went to connection 3. -/
theorem ServeHTTP_reattach_critical_section_witness :
    getClient sampleWorld (clientIdOf sampleRequest) = some (0, sampleClient) ∧
    (ServeHTTP sampleServer sampleEnv sampleWorld sampleRequest).1.heap[0]? =
      some { sampleClient with conn := 7, state := ClientState.STATE_RECONNECT,
                               addr := getRemoteAddr sampleRequest } ∧
    lockCount 0 (ServeHTTP sampleServer sampleEnv sampleWorld sampleRequest).2 = 1 ∧
    written (ServeHTTP sampleServer sampleEnv sampleWorld sampleRequest).2 =
      [(3, CloseMessage, "")] ∧
    closed (ServeHTTP sampleServer sampleEnv sampleWorld sampleRequest).2 = [3] ∧
    7 ∉ closed (ServeHTTP sampleServer sampleEnv sampleWorld sampleRequest).2 ∧
    handed (ServeHTTP sampleServer sampleEnv sampleWorld sampleRequest).2 = [] :=
  have h := (ServeHTTP_reattach_critical_section sampleServer sampleEnv sampleWorld
    sampleRequest).1 7 anonymous 0 sampleClient rfl (Or.inl ⟨rfl, rfl⟩) (by decide)
  ⟨by decide, h.2.2.1, h.2.2.2.1, h.2.2.2.2.2.1, h.2.2.2.2.2.2.1, h.2.2.2.2.2.2.2.2.2.1,
   h.2.2.2.2.2.2.2.2.2.2⟩

/-! ## Fresh Clients -/

/-- The registry holds no Client under the empty token. -/
theorem getClient_empty (w : World) : getClient w "" = none := by
  unfold getClient
  rw [w.noEmptyID]

/-- A request without the `client-id` parameter supplies the empty token. -/
theorem clientIdOf_absent (r : Request) (h : mapGet r.Query "client-id" = none) :
    clientIdOf r = "" := by
  unfold clientIdOf Values.Get
  rw [h]

/-- Claim C3. When the upgrade succeeds and authentication passes, `ServeHTTP` calls
`newClient` exactly when the registry lookup of the `client-id` token finds no Client. If
the lookup finds none, one Client is created, built from the request's origin, the
session, the upgraded connection and the server's settings, with the identity the
generator yields, under which the registry holds no Client. A request without the
parameter is handled this way: it is looked up under the empty token, which is no
identity. If the lookup finds a Client, none is created. The token is no argument of
`newClient`: two requests that differ in the token only, both unknown to the registry,
leave the same world and the same effects after the lookup, so a request with an unknown
token is handled as one with no token. -/
theorem ServeHTTP_creates_client_iff_unknown (s : SocketServer) (env : Env) (w : World)
    (r : Request) (conn : Conn) (session : Session)
    (hup : env.Upgrade w r = Except.ok conn) (hau : Authenticated s env r session) :
    (getClient w (clientIdOf r) = none →
      created (ServeHTTP s env w r).2 = [w.heap.length] ∧
      (ServeHTTP s env w r).1.heap = w.heap ++
        [{ id := env.newID w, addr := getRemoteAddr r, auth := s.auth, session := session,
           conn := conn, state := ClientState.declaredElsewhere 0, editable := s.editable,
           baseURL := s.baseURL, header := forwardedSnapshot s env r,
           pingInterval := s.pingInterval, reconnectTimeout := s.reconnectTimeout }] ∧
      getClient w (env.newID w) = none) ∧
    (mapGet r.Query "client-id" = none →
      getClient w (clientIdOf r) = none ∧
      created (ServeHTTP s env w r).2 = [w.heap.length]) ∧
    (∀ p c, getClient w (clientIdOf r) = some (p, c) →
      created (ServeHTTP s env w r).2 = [] ∧ (ServeHTTP s env w r).1.heap.length = w.heap.length) ∧
    (∀ r', r'.Header = r.Header → r'.RemoteAddr = r.RemoteAddr →
      env.Upgrade w r' = Except.ok conn → Authenticated s env r' session →
      getClient w (clientIdOf r) = none → getClient w (clientIdOf r') = none →
      (ServeHTTP s env w r).1 = (ServeHTTP s env w r').1 ∧
      (ServeHTTP s env w r).2.tail = (ServeHTTP s env w r').2.tail) := by
  have hfresh : getClient w (clientIdOf r) = none →
      created (ServeHTTP s env w r).2 = [w.heap.length] ∧
      (ServeHTTP s env w r).1.heap = w.heap ++
        [{ id := env.newID w, addr := getRemoteAddr r, auth := s.auth, session := session,
           conn := conn, state := ClientState.declaredElsewhere 0, editable := s.editable,
           baseURL := s.baseURL, header := forwardedSnapshot s env r,
           pingInterval := s.pingInterval, reconnectTimeout := s.reconnectTimeout }] ∧
      getClient w (env.newID w) = none := by
    intro hreg
    rw [ServeHTTP_authenticated s env w r conn session hup hau,
      attach_not_found s env w r conn session hreg]
    obtain ⟨hw, hc⟩ := fresh_cases s env w r conn session (forwardedSnapshot s env r)
    refine ⟨?_, ?_, ?_⟩
    · rcases hc with ⟨_, h⟩ | ⟨msg, _, _, h⟩ | ⟨msg, _, _, h⟩ <;> simp [h, created]
    · simp only [hw, newClient]
    · unfold getClient
      rw [env.newID_fresh w]
  refine ⟨hfresh, ?_, ?_, ?_⟩
  · intro hq
    have hreg : getClient w (clientIdOf r) = none := by
      rw [clientIdOf_absent r hq]
      exact getClient_empty w
    exact ⟨hreg, (hfresh hreg).1⟩
  · intro p c hreg
    rw [ServeHTTP_authenticated s env w r conn session hup hau,
      attach_found s env w r conn session p c hreg, reattach_trace]
    simp [created, reattach]
  · intro r' hh ha hup' hau' hreg hreg'
    rw [ServeHTTP_authenticated s env w r conn session hup hau,
      attach_not_found s env w r conn session hreg,
      ServeHTTP_authenticated s env w r' conn session hup' hau',
      attach_not_found s env w r' conn session hreg']
    have hsnap : forwardedSnapshot s env r' = forwardedSnapshot s env r := by
      unfold forwardedSnapshot
      rw [hh]
    have haddr : getRemoteAddr r' = getRemoteAddr r := by
      unfold getRemoteAddr
      rw [hh, ha]
    have hf : fresh s env w r' conn session (forwardedSnapshot s env r') =
        fresh s env w r conn session (forwardedSnapshot s env r) := by
      unfold fresh
      rw [hsnap, haddr]
    simp [hf]

/-- Claim C3 at a request with the unknown token `gone` and at a request without token:
each creates the Client 1, and both leave the same world. -/
theorem ServeHTTP_creates_client_iff_unknown_witness :
    getClient sampleWorld (clientIdOf unknownTokenRequest) = none ∧
    created (ServeHTTP sampleServer sampleEnv sampleWorld unknownTokenRequest).2 = [1] ∧
    mapGet noTokenRequest.Query "client-id" = none ∧
    created (ServeHTTP sampleServer sampleEnv sampleWorld noTokenRequest).2 = [1] ∧
    (ServeHTTP sampleServer sampleEnv sampleWorld unknownTokenRequest).1 =
      (ServeHTTP sampleServer sampleEnv sampleWorld noTokenRequest).1 :=
  have h := ServeHTTP_creates_client_iff_unknown sampleServer sampleEnv sampleWorld
    unknownTokenRequest 7 anonymous rfl (Or.inl ⟨rfl, rfl⟩)
  have h0 := ServeHTTP_creates_client_iff_unknown sampleServer sampleEnv sampleWorld
    noTokenRequest 7 anonymous rfl (Or.inl ⟨rfl, rfl⟩)
  ⟨by decide, (h.1 (by decide)).1, by decide, (h0.2.1 (by decide)).2,
   (h.2.2.2 noTokenRequest rfl rfl rfl (Or.inl ⟨rfl, rfl⟩) (by decide) (by decide)).1⟩

/-- Claim C4 fails as stated: on the fresh path `client.send` refuses the announcement; a
fresh Client was created and the announcement was handed to it, and no announcement is
sent. -/
theorem ServeHTTP_announcement_counterexample :
    getClient sampleWorld (clientIdOf noTokenRequest) = none ∧
    created (ServeHTTP sampleServer sendFailsEnv sampleWorld noTokenRequest).2 = [1] ∧
    handed (ServeHTTP sampleServer sendFailsEnv sampleWorld noTokenRequest).2 =
      [(1, "u=;i=u1")] ∧
    sent (ServeHTTP sampleServer sendFailsEnv sampleWorld noTokenRequest).2 = [] := by
  decide

/-- Claim C4, amended. On the fresh path the new Client has the generated identity and the
upgraded connection, and the handler hands exactly one message to its `send`: the JSON
encoding of the announcement `OpsD{I: client.id}`. When `send` accepts it, that message is
the one message sent; when `send` refuses it, no message is sent. The handler writes no
frame itself on this path. On the reattach path nothing is handed to a Client and the
only frame written is the close frame on the previous connection. On every path a message
handed to `send` is the only one, and it goes to the one Client created by this
request. -/
theorem ServeHTTP_announcement (s : SocketServer) (env : Env) (w : World) (r : Request) :
    (∀ conn session, env.Upgrade w r = Except.ok conn → Authenticated s env r session →
      getClient w (clientIdOf r) = none →
      ∃ c msg, (ServeHTTP s env w r).1.heap[w.heap.length]? = some c ∧
        c.id = env.newID w ∧ c.conn = conn ∧
        env.Marshal { U := "", I := c.id } = some msg ∧
        created (ServeHTTP s env w r).2 = [w.heap.length] ∧
        handed (ServeHTTP s env w r).2 = [(w.heap.length, msg)] ∧
        (env.send w.heap.length msg = true →
          sent (ServeHTTP s env w r).2 = [(w.heap.length, msg)]) ∧
        (env.send w.heap.length msg = false → sent (ServeHTTP s env w r).2 = []) ∧
        written (ServeHTTP s env w r).2 = []) ∧
    (∀ conn session p c, env.Upgrade w r = Except.ok conn → Authenticated s env r session →
      getClient w (clientIdOf r) = some (p, c) →
      handed (ServeHTTP s env w r).2 = [] ∧
      sent (ServeHTTP s env w r).2 = [] ∧
      written (ServeHTTP s env w r).2 = [(c.conn, CloseMessage, "")]) ∧
    (∀ p msg, (p, msg) ∈ handed (ServeHTTP s env w r).2 →
      handed (ServeHTTP s env w r).2 = [(p, msg)] ∧ created (ServeHTTP s env w r).2 = [p]) := by
  refine ⟨?_, ?_, ?_⟩
  · intro conn session hup hau hreg
    rw [ServeHTTP_authenticated s env w r conn session hup hau,
      attach_not_found s env w r conn session hreg]
    obtain ⟨hw, hc⟩ := fresh_cases s env w r conn session (forwardedSnapshot s env r)
    have hheap : (fresh s env w r conn session (forwardedSnapshot s env r)).1.heap[w.heap.length]? =
        some (newClient w (env.newID w) (getRemoteAddr r) s.auth session conn s.editable
          s.baseURL (forwardedSnapshot s env r) s.pingInterval s.reconnectTimeout).2.2 := by
      simp only [hw, newClient]
      simp
    rcases hc with ⟨hm, _⟩ | ⟨msg, hm, hs, h⟩ | ⟨msg, hm, hs, h⟩
    · exact absurd hm (env.marshal_ok _)
    · refine ⟨_, msg, hheap, rfl, rfl, hm, ?_, ?_, ?_, ?_, ?_⟩
      · simp [h, created]
      · simp [h, handed]
      · intro hs'
        rw [hs] at hs'
        exact absurd hs' (by simp)
      · intro _
        simp [h, sent]
      · simp [h, written]
    · refine ⟨_, msg, hheap, rfl, rfl, hm, ?_, ?_, ?_, ?_, ?_⟩
      · simp [h, created]
      · simp [h, handed]
      · intro _
        simp [h, sent]
      · intro hs'
        rw [hs] at hs'
        exact absurd hs' (by simp)
      · simp [h, written]
  · intro conn session p c hup hau hreg
    rw [ServeHTTP_authenticated s env w r conn session hup hau,
      attach_found s env w r conn session p c hreg, reattach_trace]
    simp [handed, sent, written]
  · intro p msg
    rcases ServeHTTP_trace_shapes s env w r with ⟨_, h⟩ | h | ⟨_, _, h⟩ | ⟨_, h⟩ |
      ⟨_, _, _, _, _, _, h⟩ | ⟨_, _, h⟩ | ⟨_, _, _, h⟩ | ⟨_, _, _, h⟩ <;>
      (rw [h]; simp [handed, created])
    all_goals
      intro h1 h2
      subst h1
      subst h2
      simp

/-- Claim C4, amended, at a request without token: one announcement, for identity `u1`,
sent when `send` accepts it and not sent when `send` refuses it. -/
theorem ServeHTTP_announcement_witness :
    getClient sampleWorld (clientIdOf noTokenRequest) = none ∧
    handed (ServeHTTP sampleServer sampleEnv sampleWorld noTokenRequest).2 =
      [(1, "u=;i=u1")] ∧
    sent (ServeHTTP sampleServer sampleEnv sampleWorld noTokenRequest).2 = [(1, "u=;i=u1")] ∧
    written (ServeHTTP sampleServer sampleEnv sampleWorld noTokenRequest).2 = [] ∧
    sent (ServeHTTP sampleServer sendFailsEnv sampleWorld noTokenRequest).2 = [] := by
  obtain ⟨c, msg, _, hid, _, hm, _, hh, hs, _, hw⟩ :=
    (ServeHTTP_announcement sampleServer sampleEnv sampleWorld noTokenRequest).1 7 anonymous
      rfl (Or.inl ⟨rfl, rfl⟩) (by decide)
  obtain ⟨c', msg', _, hid', _, hm', _, _, _, hf', _⟩ :=
    (ServeHTTP_announcement sampleServer sendFailsEnv sampleWorld noTokenRequest).1 7 anonymous
      rfl (Or.inl ⟨rfl, rfl⟩) (by decide)
  have e : msg = "u=;i=u1" := by
    rw [hid] at hm
    exact (Option.some.inj hm).symm
  subst e
  exact ⟨by decide, hh, hs rfl, hw, hf' rfl⟩

/-! ## Pumps -/

/-- Claim C6. On both successful paths, reattachment to the Client found and a fresh
Client whose announcement was sent, the last two effects of `ServeHTTP` are
`go client.flush()` and `go client.listen()` for that Client, and these are the only pumps
started: each pump once, for the same Client. On every failing path, upgrade failure,
authentication failure, announcement that does not encode and announcement that is not
sent, no pump is started. -/
theorem ServeHTTP_pumps (s : SocketServer) (env : Env) (w : World) (r : Request) :
    (∀ conn session p c, env.Upgrade w r = Except.ok conn → Authenticated s env r session →
      getClient w (clientIdOf r) = some (p, c) →
      pumps (ServeHTTP s env w r).2 = [(p, true), (p, false)] ∧
      ∃ pre, (ServeHTTP s env w r).2 = pre ++ [Event.goFlush p, Event.goListen p]) ∧
    (∀ conn session msg, env.Upgrade w r = Except.ok conn → Authenticated s env r session →
      getClient w (clientIdOf r) = none →
      env.Marshal { U := "", I := env.newID w } = some msg →
      env.send w.heap.length msg = true →
      created (ServeHTTP s env w r).2 = [w.heap.length] ∧
      pumps (ServeHTTP s env w r).2 = [(w.heap.length, true), (w.heap.length, false)] ∧
      ∃ pre, (ServeHTTP s env w r).2 =
        pre ++ [Event.goFlush w.heap.length, Event.goListen w.heap.length]) ∧
    (∀ err, env.Upgrade w r = Except.error err → pumps (ServeHTTP s env w r).2 = []) ∧
    (∀ conn, env.Upgrade w r = Except.ok conn → AuthFails s env r →
      pumps (ServeHTTP s env w r).2 = []) ∧
    (∀ conn session, env.Upgrade w r = Except.ok conn → Authenticated s env r session →
      getClient w (clientIdOf r) = none →
      env.Marshal { U := "", I := env.newID w } = none →
      pumps (ServeHTTP s env w r).2 = []) ∧
    (∀ conn session msg, env.Upgrade w r = Except.ok conn → Authenticated s env r session →
      getClient w (clientIdOf r) = none →
      env.Marshal { U := "", I := env.newID w } = some msg →
      env.send w.heap.length msg = false →
      pumps (ServeHTTP s env w r).2 = []) := by
  refine ⟨?_, ?_, ?_, ?_, ?_, ?_⟩
  · intro conn session p c hup hau hreg
    rw [ServeHTTP_authenticated s env w r conn session hup hau,
      attach_found s env w r conn session p c hreg, reattach_trace]
    exact ⟨by simp [pumps],
      ⟨[Event.getClient (clientIdOf r), Event.lock p,
        Event.writeMessage c.conn CloseMessage [], Event.connClose c.conn,
        Event.setConn p conn, Event.setState p ClientState.STATE_RECONNECT,
        Event.setAddr p (getRemoteAddr r), Event.unlock p,
        Event.echo [("t", "client_reconnect"), ("client_id", c.id),
                    ("addr", getRemoteAddr r)]], rfl⟩⟩
  · intro conn session msg hup hau hreg hm hs
    rw [ServeHTTP_authenticated s env w r conn session hup hau,
      attach_not_found s env w r conn session hreg]
    rcases (fresh_cases s env w r conn session (forwardedSnapshot s env r)).2 with
      ⟨hm', _⟩ | ⟨msg', hm', hs', _⟩ | ⟨msg', hm', _, h⟩
    · rw [hm] at hm'
      exact absurd hm' (by simp)
    · rw [hm, Option.some.injEq] at hm'
      subst hm'
      rw [hs] at hs'
      exact absurd hs' (by simp)
    · rw [hm, Option.some.injEq] at hm'
      subst hm'
      rw [h]
      exact ⟨by simp [created], by simp [pumps],
        ⟨[Event.getClient (clientIdOf r), Event.newClient w.heap.length,
          Event.send w.heap.length msg true], rfl⟩⟩
  · intro err hup
    rw [ServeHTTP_upgrade_failed s env w r err hup]
    simp [pumps]
  · intro conn hup hau
    rw [ServeHTTP_auth_failed s env w r conn hup hau]
    rcases rejectUnauthenticated_cases s env conn with ⟨_, h⟩ | ⟨msg, _, _, h⟩ | ⟨msg, _, _, h⟩ <;>
      simp [h, pumps]
  · intro conn session hup hau hreg hm
    rw [ServeHTTP_authenticated s env w r conn session hup hau,
      attach_not_found s env w r conn session hreg]
    rcases (fresh_cases s env w r conn session (forwardedSnapshot s env r)).2 with
      ⟨_, h⟩ | ⟨msg', hm', _, _⟩ | ⟨msg', hm', _, _⟩
    · simp [h, pumps]
    · rw [hm] at hm'
      exact absurd hm' (by simp)
    · rw [hm] at hm'
      exact absurd hm' (by simp)
  · intro conn session msg hup hau hreg hm hs
    rw [ServeHTTP_authenticated s env w r conn session hup hau,
      attach_not_found s env w r conn session hreg]
    rcases (fresh_cases s env w r conn session (forwardedSnapshot s env r)).2 with
      ⟨hm', _⟩ | ⟨msg', _, _, h⟩ | ⟨msg', hm', hs', _⟩
    · rw [hm] at hm'
      exact absurd hm' (by simp)
    · simp [h, pumps]
    · rw [hm, Option.some.injEq] at hm'
      subst hm'
      rw [hs] at hs'
      exact absurd hs' (by simp)

/-- Claim C6 at the sample inputs: the pumps of the reattached Client 0, of the fresh
Client 1, and none when the announcement is not sent. -/
theorem ServeHTTP_pumps_witness :
    pumps (ServeHTTP sampleServer sampleEnv sampleWorld sampleRequest).2 =
      [(0, true), (0, false)] ∧
    pumps (ServeHTTP sampleServer sampleEnv sampleWorld noTokenRequest).2 =
      [(1, true), (1, false)] ∧
    pumps (ServeHTTP sampleServer sendFailsEnv sampleWorld noTokenRequest).2 = [] :=
  ⟨((ServeHTTP_pumps sampleServer sampleEnv sampleWorld sampleRequest).1 7 anonymous 0
      sampleClient rfl (Or.inl ⟨rfl, rfl⟩) (by decide)).1,
   ((ServeHTTP_pumps sampleServer sampleEnv sampleWorld noTokenRequest).2.1 7 anonymous
      "u=;i=u1" rfl (Or.inl ⟨rfl, rfl⟩) (by decide) rfl rfl).2.1,
   (ServeHTTP_pumps sampleServer sendFailsEnv sampleWorld noTokenRequest).2.2.2.2.2 7
      anonymous "u=;i=u1" rfl (Or.inl ⟨rfl, rfl⟩) (by decide) rfl rfl⟩

/-! ## Aborted handshakes -/

/-- Claim C7. When authentication is configured and no session can be resolved from the
request, the effects of `ServeHTTP` are exactly: obtain a message writer on the upgraded
connection, write the JSON encoding of the navigation instruction
`OpsD{U: baseURL + "_auth/logout"}`, close the writer. That text message is the first and
only frame written; the registry is not consulted, no Client is created, nothing is
handed to a Client, no pump is started and the world is left as it was. When the upgrade
fails, the only effect is the log line and the world is as it was. -/
theorem ServeHTTP_unauthenticated (s : SocketServer) (env : Env) (w : World) (r : Request) :
    (∀ conn, env.Upgrade w r = Except.ok conn → AuthFails s env r →
      ∃ msg, env.Marshal { U := s.baseURL ++ "_auth/logout", I := "" } = some msg ∧
        (ServeHTTP s env w r).2 =
          [Event.nextWriter conn, Event.swWrite conn msg, Event.swClose conn] ∧
        written (ServeHTTP s env w r).2 = [(conn, TextMessage, msg)] ∧
        (ServeHTTP s env w r).1 = w ∧
        lookups (ServeHTTP s env w r).2 = [] ∧
        created (ServeHTTP s env w r).2 = [] ∧
        handed (ServeHTTP s env w r).2 = [] ∧
        pumps (ServeHTTP s env w r).2 = []) ∧
    (∀ err, env.Upgrade w r = Except.error err →
      ServeHTTP s env w r = (w, [Event.echo [("t", "socket_upgrade"), ("err", err)]])) := by
  refine ⟨?_, fun err hup => ServeHTTP_upgrade_failed s env w r err hup⟩
  intro conn hup hau
  rw [ServeHTTP_auth_failed s env w r conn hup hau]
  rcases rejectUnauthenticated_cases s env conn with ⟨hm, _⟩ | ⟨m, hm, _, h⟩ | ⟨m, _, hn, _⟩
  · exact absurd hm (env.marshal_ok _)
  · exact ⟨m, hm, by simp [h], by simp [h, written], rfl, by simp [h, lookups],
      by simp [h, created], by simp [h, handed], by simp [h, pumps]⟩
  · rw [env.nextWriter_fresh w r conn hup] at hn
    exact absurd hn (by simp)

/-- Claim C7 at a request to the server with authentication: the navigation instruction
is the only frame, written on the upgraded connection 7. -/
theorem ServeHTTP_unauthenticated_witness :
    (authServer.auth = some ⟨"oidc"⟩ ∧ sampleEnv.identify ⟨"oidc"⟩ noTokenRequest = none) ∧
    (ServeHTTP authServer sampleEnv sampleWorld noTokenRequest).1 = sampleWorld ∧
    lookups (ServeHTTP authServer sampleEnv sampleWorld noTokenRequest).2 = [] ∧
    written (ServeHTTP authServer sampleEnv sampleWorld noTokenRequest).2 =
      [(7, TextMessage, "u=/_auth/logout;i=")] := by
  obtain ⟨msg, hm, _, hw, h1, hl, _⟩ :=
    (ServeHTTP_unauthenticated authServer sampleEnv sampleWorld noTokenRequest).1 7
      rfl ⟨⟨"oidc"⟩, rfl, rfl⟩
  have e : msg = "u=/_auth/logout;i=" := (Option.some.inj hm).symm
  subst e
  exact ⟨by decide, h1, hl, hw⟩

/-- Claim C8 fails as stated: authentication is configured and no session is resolved; the
handler writes the navigation instruction, closes the message writer and returns, and
`Close` is not called on the upgraded connection 7. -/
theorem ServeHTTP_abort_close_counterexample :
    (authServer.auth = some ⟨"oidc"⟩ ∧ sampleEnv.identify ⟨"oidc"⟩ noTokenRequest = none) ∧
    (ServeHTTP authServer sampleEnv sampleWorld noTokenRequest).2 =
      [Event.nextWriter 7, Event.swWrite 7 "u=/_auth/logout;i=", Event.swClose 7] ∧
    7 ∉ closed (ServeHTTP authServer sampleEnv sampleWorld noTokenRequest).2 := by
  decide

/-- Claim C8, amended. On every path where the upgrade succeeded and the handshake is
aborted, authentication failure, announcement that does not encode and announcement that
is not sent, `ServeHTTP` returns without calling `Close` on any connection: the upgraded
connection is left open. -/
theorem ServeHTTP_abort_leaves_connection_open (s : SocketServer) (env : Env) (w : World)
    (r : Request) (conn : Conn) (hup : env.Upgrade w r = Except.ok conn) :
    (AuthFails s env r → closed (ServeHTTP s env w r).2 = []) ∧
    (∀ session, Authenticated s env r session → getClient w (clientIdOf r) = none →
      env.Marshal { U := "", I := env.newID w } = none →
      closed (ServeHTTP s env w r).2 = []) ∧
    (∀ session msg, Authenticated s env r session → getClient w (clientIdOf r) = none →
      env.Marshal { U := "", I := env.newID w } = some msg →
      env.send w.heap.length msg = false →
      closed (ServeHTTP s env w r).2 = []) := by
  refine ⟨?_, ?_, ?_⟩
  · intro hau
    rw [ServeHTTP_auth_failed s env w r conn hup hau]
    rcases rejectUnauthenticated_cases s env conn with ⟨_, h⟩ | ⟨m, _, _, h⟩ | ⟨m, _, _, h⟩ <;>
      simp [h, closed]
  · intro session hau hreg _
    rw [ServeHTTP_authenticated s env w r conn session hup hau,
      attach_not_found s env w r conn session hreg]
    rcases (fresh_cases s env w r conn session (forwardedSnapshot s env r)).2 with
      ⟨_, h⟩ | ⟨msg', _, _, h⟩ | ⟨msg', _, _, h⟩ <;> simp [h, closed]
  · intro session msg hau hreg _ _
    rw [ServeHTTP_authenticated s env w r conn session hup hau,
      attach_not_found s env w r conn session hreg]
    rcases (fresh_cases s env w r conn session (forwardedSnapshot s env r)).2 with
      ⟨_, h⟩ | ⟨msg', _, _, h⟩ | ⟨msg', _, _, h⟩ <;> simp [h, closed]

/-- Claim C8, amended, at a fresh session whose announcement is not sent. -/
theorem ServeHTTP_abort_leaves_connection_open_witness :
    sendFailsEnv.send 1 "u=;i=u1" = false ∧
    closed (ServeHTTP sampleServer sendFailsEnv sampleWorld noTokenRequest).2 = [] :=
  ⟨rfl, (ServeHTTP_abort_leaves_connection_open sampleServer sendFailsEnv sampleWorld
    noTokenRequest 7 rfl).2.2 anonymous "u=;i=u1" (Or.inl ⟨rfl, rfl⟩) (by decide) rfl rfl⟩

/-- Claim C9. If, on the fresh path, the announcement does not encode or is not sent,
then after `ServeHTTP` returns the registry is the registry before the request, and it
holds no Client under the identity of the Client created for this request; no pump was
started for that Client. On every path `ServeHTTP` leaves the registry as it was: the
handler itself only reads it. -/
theorem ServeHTTP_failed_announcement_registry (s : SocketServer) (env : Env) (w : World)
    (r : Request) :
    (∀ conn session, env.Upgrade w r = Except.ok conn → Authenticated s env r session →
      getClient w (clientIdOf r) = none →
      (env.Marshal { U := "", I := env.newID w } = none ∨
        ∃ msg, env.Marshal { U := "", I := env.newID w } = some msg ∧
          env.send w.heap.length msg = false) →
      (ServeHTTP s env w r).1.clientsByID = w.clientsByID ∧
      created (ServeHTTP s env w r).2 = [w.heap.length] ∧
      (∃ c, (ServeHTTP s env w r).1.heap[w.heap.length]? = some c ∧
        mapGet (ServeHTTP s env w r).1.clientsByID c.id = none ∧
        getClient (ServeHTTP s env w r).1 c.id = none) ∧
      sent (ServeHTTP s env w r).2 = [] ∧
      pumps (ServeHTTP s env w r).2 = []) ∧
    (ServeHTTP s env w r).1.clientsByID = w.clientsByID := by
  have hall : (ServeHTTP s env w r).1.clientsByID = w.clientsByID := by
    rcases ServeHTTP_paths s env w r with ⟨err, hup⟩ | ⟨conn, hup, hau⟩ |
      ⟨conn, session, hup, hau⟩
    · rw [ServeHTTP_upgrade_failed s env w r err hup]
    · rw [ServeHTTP_auth_failed s env w r conn hup hau]
    · rw [ServeHTTP_authenticated s env w r conn session hup hau]
      cases hreg : getClient w (clientIdOf r) with
      | some pc =>
        obtain ⟨p, c⟩ := pc
        rw [attach_found s env w r conn session p c hreg]
        rfl
      | none =>
        rw [attach_not_found s env w r conn session hreg]
        simp only [(fresh_cases s env w r conn session (forwardedSnapshot s env r)).1,
          newClient]
  refine ⟨?_, hall⟩
  intro conn session hup hau hreg hfail
  have hreg' : mapGet (ServeHTTP s env w r).1.clientsByID (env.newID w) = none := by
    rw [hall]
    exact env.newID_fresh w
  have hget : getClient (ServeHTTP s env w r).1 (env.newID w) = none := by
    unfold getClient
    rw [hreg']
  refine ⟨hall, ?_, ?_, ?_, ?_⟩
  · rw [ServeHTTP_authenticated s env w r conn session hup hau,
      attach_not_found s env w r conn session hreg]
    rcases (fresh_cases s env w r conn session (forwardedSnapshot s env r)).2 with
      ⟨_, h⟩ | ⟨msg', _, _, h⟩ | ⟨msg', _, _, h⟩ <;> simp [h, created]
  · have hheap : (ServeHTTP s env w r).1.heap[w.heap.length]? =
        some (newClient w (env.newID w) (getRemoteAddr r) s.auth session conn s.editable
          s.baseURL (forwardedSnapshot s env r) s.pingInterval s.reconnectTimeout).2.2 := by
      rw [ServeHTTP_authenticated s env w r conn session hup hau,
        attach_not_found s env w r conn session hreg]
      simp only [(fresh_cases s env w r conn session (forwardedSnapshot s env r)).1,
        newClient]
      simp
    exact ⟨_, hheap, hreg', hget⟩
  · rw [ServeHTTP_authenticated s env w r conn session hup hau,
      attach_not_found s env w r conn session hreg]
    rcases (fresh_cases s env w r conn session (forwardedSnapshot s env r)).2 with
      ⟨_, h⟩ | ⟨msg', _, _, h⟩ | ⟨msg', hm', hs', _⟩
    · simp [h, sent]
    · simp [h, sent]
    · rcases hfail with hm | ⟨msg, hm, hs⟩
      · rw [hm] at hm'
        exact absurd hm' (by simp)
      · rw [hm, Option.some.injEq] at hm'
        subst hm'
        rw [hs] at hs'
        exact absurd hs' (by simp)
  · rw [ServeHTTP_authenticated s env w r conn session hup hau,
      attach_not_found s env w r conn session hreg]
    rcases (fresh_cases s env w r conn session (forwardedSnapshot s env r)).2 with
      ⟨_, h⟩ | ⟨msg', _, _, h⟩ | ⟨msg', hm', hs', _⟩
    · simp [h, pumps]
    · simp [h, pumps]
    · rcases hfail with hm | ⟨msg, hm, hs⟩
      · rw [hm] at hm'
        exact absurd hm' (by simp)
      · rw [hm, Option.some.injEq] at hm'
        subst hm'
        rw [hs] at hs'
        exact absurd hs' (by simp)

/-- Claim C9 at a fresh session whose announcement is not sent: the registry still maps
`c1` only, and holds nothing under the generated identity `u1`. -/
theorem ServeHTTP_failed_announcement_registry_witness :
    getClient sampleWorld (clientIdOf noTokenRequest) = none ∧
    sendFailsEnv.send 1 "u=;i=u1" = false ∧
    (ServeHTTP sampleServer sendFailsEnv sampleWorld noTokenRequest).1.clientsByID =
      [("c1", 0)] ∧
    created (ServeHTTP sampleServer sendFailsEnv sampleWorld noTokenRequest).2 = [1] ∧
    mapGet (ServeHTTP sampleServer sendFailsEnv sampleWorld noTokenRequest).1.clientsByID "u1" =
      none :=
  have h := (ServeHTTP_failed_announcement_registry sampleServer sendFailsEnv sampleWorld
    noTokenRequest).1 7 anonymous rfl (Or.inl ⟨rfl, rfl⟩) (by decide)
    (Or.inr ⟨"u=;i=u1", rfl, rfl⟩)
  ⟨by decide, rfl, h.1, h.2.1, h.1 ▸ (by decide)⟩

/-! ## Reported statuses -/

/-- Claim C10 fails as stated: authentication is configured and no session is resolved;
the navigation instruction is written and the handler reports no status, not 401. -/
theorem ServeHTTP_status_counterexample :
    (authServer.auth = some ⟨"oidc"⟩ ∧ sampleEnv.identify ⟨"oidc"⟩ unknownTokenRequest = none) ∧
    written (ServeHTTP authServer sampleEnv sampleWorld unknownTokenRequest).2 =
      [(7, TextMessage, "u=/_auth/logout;i=")] ∧
    statuses (ServeHTTP authServer sampleEnv sampleWorld unknownTokenRequest).2 = [] := by
  decide

/-- Claim C10, amended. When authentication is configured and no session is resolved,
`ServeHTTP` writes the navigation instruction on the upgraded connection and passes no
status to `http.Error`: there is no 401. On a successful fresh handshake and on a
successful reattach handshake it passes no status to `http.Error` either. -/
theorem ServeHTTP_status (s : SocketServer) (env : Env) (w : World) (r : Request) :
    (∀ conn, env.Upgrade w r = Except.ok conn → AuthFails s env r →
      statuses (ServeHTTP s env w r).2 = [] ∧
      ∃ msg, env.Marshal { U := s.baseURL ++ "_auth/logout", I := "" } = some msg ∧
        written (ServeHTTP s env w r).2 = [(conn, TextMessage, msg)]) ∧
    (∀ conn session msg, env.Upgrade w r = Except.ok conn → Authenticated s env r session →
      getClient w (clientIdOf r) = none →
      env.Marshal { U := "", I := env.newID w } = some msg →
      env.send w.heap.length msg = true →
      statuses (ServeHTTP s env w r).2 = []) ∧
    (∀ conn session p c, env.Upgrade w r = Except.ok conn → Authenticated s env r session →
      getClient w (clientIdOf r) = some (p, c) →
      statuses (ServeHTTP s env w r).2 = []) := by
  refine ⟨?_, ?_, ?_⟩
  · intro conn hup hau
    rw [ServeHTTP_auth_failed s env w r conn hup hau]
    rcases rejectUnauthenticated_cases s env conn with ⟨hm, _⟩ | ⟨m, hm, _, h⟩ | ⟨m, _, hn, _⟩
    · exact absurd hm (env.marshal_ok _)
    · exact ⟨by simp [h, statuses], m, hm, by simp [h, written]⟩
    · rw [env.nextWriter_fresh w r conn hup] at hn
      exact absurd hn (by simp)
  · intro conn session msg hup hau hreg hm hs
    rw [ServeHTTP_authenticated s env w r conn session hup hau,
      attach_not_found s env w r conn session hreg]
    rcases (fresh_cases s env w r conn session (forwardedSnapshot s env r)).2 with
      ⟨hm', _⟩ | ⟨msg', hm', hs', _⟩ | ⟨msg', _, _, h⟩
    · rw [hm] at hm'
      exact absurd hm' (by simp)
    · rw [hm, Option.some.injEq] at hm'
      subst hm'
      rw [hs] at hs'
      exact absurd hs' (by simp)
    · simp [h, statuses]
  · intro conn session p c hup hau hreg
    rw [ServeHTTP_authenticated s env w r conn session hup hau,
      attach_found s env w r conn session p c hreg, reattach_trace]
    simp [statuses]

/-- Claim C10, amended, at the sample inputs: no status on authentication failure, on a
fresh handshake and on reattachment. -/
theorem ServeHTTP_status_witness :
    statuses (ServeHTTP authServer sampleEnv sampleWorld sampleRequest).2 = [] ∧
    statuses (ServeHTTP sampleServer sampleEnv sampleWorld noTokenRequest).2 = [] ∧
    statuses (ServeHTTP sampleServer sampleEnv sampleWorld sampleRequest).2 = [] :=
  ⟨((ServeHTTP_status authServer sampleEnv sampleWorld sampleRequest).1 7 rfl
      ⟨⟨"oidc"⟩, rfl, rfl⟩).1,
   (ServeHTTP_status sampleServer sampleEnv sampleWorld noTokenRequest).2.1 7
      anonymous "u=;i=u1" rfl (Or.inl ⟨rfl, rfl⟩) (by decide) rfl rfl,
   (ServeHTTP_status sampleServer sampleEnv sampleWorld sampleRequest).2.2 7 anonymous 0
      sampleClient rfl (Or.inl ⟨rfl, rfl⟩) (by decide)⟩

/-! ## The forwarded-header snapshot -/

/-- A map read after a write of the same key yields the value written. -/
theorem mapGet_mapSet_self {V : Type} (m : GoMap V) (k : String) (v : V) :
    mapGet (mapSet m k v) k = some v := by
  induction m with
  | nil => simp [mapSet, mapGet]
  | cons kv rest ih =>
    obtain ⟨k', v'⟩ := kv
    by_cases h : k' = k
    · simp [mapSet, mapGet, h]
    · simp [mapSet, mapGet, h, ih]

/-- A map read after a write of another key is the read before the write. -/
theorem mapGet_mapSet_ne {V : Type} (m : GoMap V) (k k' : String) (v : V) (h : k ≠ k') :
    mapGet (mapSet m k v) k' = mapGet m k' := by
  induction m with
  | nil => simp [mapSet, mapGet, h]
  | cons kv rest ih =>
    obtain ⟨k0, v0⟩ := kv
    by_cases h0 : k0 = k
    · subst h0
      simp [mapSet, mapGet, h]
    · by_cases h1 : k0 = k'
      · subst h1
        simp [mapSet, mapGet, h0]
      · simp [mapSet, mapGet, h0, h1, ih]

/-- A map read of a key that is no key of the map finds nothing. -/
theorem mapGet_eq_none_of_not_mem {V : Type} (m : GoMap V) (k : String)
    (h : k ∉ mapKeys m) : mapGet m k = none := by
  induction m with
  | nil => simp [mapGet]
  | cons kv rest ih =>
    obtain ⟨k0, v0⟩ := kv
    simp only [mapKeys, List.map_cons, List.mem_cons, not_or] at h
    have h0 : ¬ k0 = k := fun e => h.1 e.symm
    simp only [mapGet, h0, if_false]
    exact ih h.2

/-- One round of the loop does not change what the map holds for another key. -/
theorem forwardStep_other (env : Env) (fh : GoMap Bool) (acc : Header) (k0 k : String)
    (v0 : List String) (hk : k0 ≠ k) :
    mapGet (forwardStep env fh acc (k0, v0)) k = mapGet acc k := by
  unfold forwardStep
  by_cases h : (mapGetBool fh "*" || mapGetBool fh (env.ToLower k0)) = true
  · simp only [h, if_true]
    exact mapGet_mapSet_ne _ _ _ _ hk
  · simp only [h]
    rfl

/-- Reading the map the loop of lines 80-84 leaves, started from `acc`, over a header map
with distinct keys. -/
theorem forward_loop_lookup (env : Env) (fh : GoMap Bool) (l : Header)
    (hnd : (mapKeys l).Nodup) (acc : Header) (k : String) :
    mapGet (l.foldl (forwardStep env fh) acc) k =
      if (mapGetBool fh "*" || mapGetBool fh (env.ToLower k)) = true then
        (match mapGet l k with
         | some v => some v
         | none => mapGet acc k)
      else mapGet acc k := by
  induction l generalizing acc with
  | nil => simp [mapGet]
  | cons kv rest ih =>
    obtain ⟨k0, v0⟩ := kv
    simp only [mapKeys, List.map_cons, List.nodup_cons] at hnd
    obtain ⟨hk0, hrest⟩ := hnd
    rw [List.foldl_cons, ih hrest]
    by_cases hk : k0 = k
    · subst hk
      have hnone : mapGet rest k0 = none := mapGet_eq_none_of_not_mem rest k0 hk0
      by_cases hadm : (mapGetBool fh "*" || mapGetBool fh (env.ToLower k0)) = true
      · simp [hadm, hnone, forwardStep, mapGet, mapGet_mapSet_self]
      · simp [hadm, forwardStep]
    · by_cases hadm : (mapGetBool fh "*" || mapGetBool fh (env.ToLower k)) = true
      · simp only [hadm, if_true, mapGet, hk, if_false]
        rw [forwardStep_other env fh acc k0 k v0 hk]
      · simp only [hadm]
        exact forwardStep_other env fh acc k0 k v0 hk

/-- Claim C5 fails as stated: the policy contains the name `X-Custom`, the request carries
the header `X-Custom`, and the snapshot does not contain it: the handler looks up the
lower-cased name `x-custom`, which the policy does not contain. -/
theorem forwardedSnapshot_counterexample :
    specForwards sampleEnv [("X-Custom", true)] "X-Custom" ∧
    mixedCaseServer.forwardedHeaders = some [("X-Custom", true)] ∧
    sampleEnv.ToLower "X-Custom" = "x-custom" ∧
    mapGet customHeaderRequest.Header "X-Custom" = some ["v"] ∧
    mapGet (forwardedSnapshot mixedCaseServer sampleEnv customHeaderRequest) "X-Custom" =
      none :=
  ⟨Or.inr ⟨"X-Custom", by decide, rfl⟩, rfl, by decide, by decide, by decide⟩

/-- Claim C5, amended. For every request, whose header map has distinct keys, and every
forwarding policy, the snapshot holds for a name exactly what the request holds for it
when the policy has the wildcard `*` or has `strings.ToLower` of the name, and nothing
otherwise; so every header in it is on the request, under its original name and with its
original values. It is empty when no policy is configured. On the fresh path this
snapshot is the `header` of the Client created. Under the policy that names `X-Custom` as
it is written on the wire, the snapshot holds nothing for `X-Custom`, in every
environment. -/
theorem forwardedSnapshot_lookup (s : SocketServer) (env : Env) (r : Request)
    (hnd : (mapKeys r.Header).Nodup) :
    (∀ fh, s.forwardedHeaders = some fh → ∀ k,
      mapGet (forwardedSnapshot s env r) k =
        if (mapGetBool fh "*" || mapGetBool fh (env.ToLower k)) = true then
          mapGet r.Header k
        else none) ∧
    (s.forwardedHeaders = none → forwardedSnapshot s env r = []) ∧
    (∀ k v, mapGet (forwardedSnapshot s env r) k = some v → mapGet r.Header k = some v) ∧
    (∀ w conn session, env.Upgrade w r = Except.ok conn → Authenticated s env r session →
      getClient w (clientIdOf r) = none →
      ∃ c, (ServeHTTP s env w r).1.heap[w.heap.length]? = some c ∧
        c.header = forwardedSnapshot s env r) ∧
    (s.forwardedHeaders = some [("X-Custom", true)] →
      mapGet (forwardedSnapshot s env r) "X-Custom" = none) := by
  have hexact : ∀ fh, s.forwardedHeaders = some fh → ∀ k,
      mapGet (forwardedSnapshot s env r) k =
        if (mapGetBool fh "*" || mapGetBool fh (env.ToLower k)) = true then
          mapGet r.Header k
        else none := by
    intro fh hfh k
    unfold forwardedSnapshot
    rw [hfh]
    simp only []
    rw [forward_loop_lookup env fh r.Header hnd [] k]
    by_cases hadm : (mapGetBool fh "*" || mapGetBool fh (env.ToLower k)) = true
    · simp only [hadm, if_true]
      cases mapGet r.Header k with
      | none => rfl
      | some v => rfl
    · simp only [hadm, if_false]
      rfl
  refine ⟨hexact, ?_, ?_, ?_, ?_⟩
  · intro hnone
    unfold forwardedSnapshot
    rw [hnone]
  · intro k v hkv
    cases hfh : s.forwardedHeaders with
    | none =>
      unfold forwardedSnapshot at hkv
      rw [hfh] at hkv
      simp [mapGet] at hkv
    | some fh =>
      rw [hexact fh hfh k] at hkv
      by_cases hadm : (mapGetBool fh "*" || mapGetBool fh (env.ToLower k)) = true
      · simpa [hadm] using hkv
      · simp [hadm] at hkv
  · intro w conn session hup hau hreg
    rw [ServeHTTP_authenticated s env w r conn session hup hau,
      attach_not_found s env w r conn session hreg]
    refine ⟨(newClient w (env.newID w) (getRemoteAddr r) s.auth session conn s.editable
      s.baseURL (forwardedSnapshot s env r) s.pingInterval s.reconnectTimeout).2.2, ?_, rfl⟩
    simp only [(fresh_cases s env w r conn session (forwardedSnapshot s env r)).1, newClient]
    simp
  · intro hfh
    have hlow : env.ToLower "X-Custom" = "x-custom" := by
      rw [env.toLower_ascii "X-Custom" (by decide)]
      decide
    rw [hexact _ hfh "X-Custom", hlow]
    have hno : (mapGetBool [("X-Custom", true)] "*" ||
        mapGetBool [("X-Custom", true)] "x-custom") = false := by decide
    rw [hno]
    rfl

/-- Claim C5, amended, at the sample request and the policy `cookie`: the header `Cookie`
is in the snapshot and `X-Forwarded-For` is not. -/
theorem forwardedSnapshot_lookup_witness :
    (mapKeys sampleRequest.Header).Nodup ∧
    mapGet (forwardedSnapshot sampleServer sampleEnv sampleRequest) "Cookie" = some ["k=v"] ∧
    mapGet (forwardedSnapshot sampleServer sampleEnv sampleRequest) "X-Forwarded-For" = none :=
  have h := (forwardedSnapshot_lookup sampleServer sampleEnv sampleRequest (by decide)).1
    [("cookie", true)] rfl
  ⟨by decide, (h "Cookie").trans (by decide), (h "X-Forwarded-For").trans (by decide)⟩

end Wave
